import Mathlib

/-!
Shallow embedding of src/src/service/search/datafusion/exec.rs
(OpenObserve query-execution fabric): execution-context construction,
session configuration, runtime-environment construction, table-provider
registration, the merge/compaction SQL template selection, and the
multi-tenant resource governor. Definitions follow the Rust source;
items whose definitions live outside the provided source tree
(enum variant lists, external constants) are modelled from the spec and
marked as such in their doc comments.
-/

namespace OpenObserve

/-- Arrow logical data types, as far as this unit distinguishes them. -/
inductive DataType where
  | int64
  | uint64
  | float64
  | boolean
  | utf8
  deriving DecidableEq, Repr

/-- One Arrow schema field: name, logical type, nullability. -/
structure Field where
  name : String
  data_type : DataType
  nullable : Bool
  deriving DecidableEq, Repr

/-- An Arrow schema is the ordered list of its fields. -/
abbrev Schema := List Field

/-- Modelled from the spec: stream semantics classes. The source matches on
the index and metadata variants; the remaining variants cover every other
stream kind. -/
inductive StreamType where
  | logs
  | metrics
  | traces
  | enrichmentTables
  | filelist
  | metadata
  | index
  deriving DecidableEq, Repr

/-- Modelled from the spec: storage backend kinds. The three named tiers are
the ephemeral shared cache (memory), write-ahead staging (wal) and
scratch/temp (tmpfs); `remote` stands for any other backend kind, which the
spec calls the default durable object store and which table registration
rejects. -/
inductive StorageType where
  | memory
  | wal
  | tmpfs
  | remote
  deriving DecidableEq, Repr

/-- The only error constructor this unit produces. -/
inductive DataFusionError where
  | execution (msg : String)
  deriving DecidableEq, Repr

/-- Fields of the common configuration section read by this unit. -/
structure CommonCfg where
  column_timestamp : String
  bloom_filter_enabled : Bool
  bloom_filter_disabled_on_search : Bool
  feature_join_match_one_enabled : Bool
  deriving DecidableEq, Repr

/-- Fields of the limit configuration section read by this unit. -/
structure LimitCfg where
  cpu_num : Nat
  datafusion_min_partition_num : Nat
  datafusion_file_stat_cache_max_entries : Nat
  distinct_values_hourly : Bool
  deriving DecidableEq, Repr

/-- Fields of the memory-cache configuration section read by this unit. -/
structure MemoryCacheCfg where
  datafusion_memory_pool : String
  datafusion_max_size : Nat
  deriving DecidableEq, Repr

/-- The process configuration, restricted to the fields this unit reads. -/
structure Config where
  common : CommonCfg
  limit : LimitCfg
  memory_cache : MemoryCacheCfg
  deriving DecidableEq, Repr

/-- const DATAFUSION_MIN_MEM: 256 MiB floor for the memory pool. -/
def DATAFUSION_MIN_MEM : Nat := 1024 * 1024 * 256

/-- const DATAFUSION_MIN_PARTITION: hard floor of 2 for the partition count. -/
def DATAFUSION_MIN_PARTITION : Nat := 2

/-- Modelled from the spec: the recognized name marker of an
hourly-distinct-values metadata stream. Its definition lives in the
metadata service outside the provided source; only the fact that stream
names are tested against it matters here. -/
def DISTINCT_STREAM_PREFIX : String := "distinct_values"

/-- Modelled from the spec: the fixed batch size used by every session
configuration. Its value is a constant of the config crate outside the
provided source; no claim depends on the value. -/
def PARQUET_BATCH_SIZE : Nat := 8192

/-- The index-stream compaction template of merge_parquet_files: all rows
whose file_name is not among the deleted file names, ordered by the
timestamp column descending. -/
def index_merge_sql (ts : String) : String :=
  s!"SELECT * FROM tbl WHERE file_name NOT IN (SELECT file_name FROM tbl WHERE deleted IS TRUE ORDER BY {ts} DESC) ORDER BY {ts} DESC"

/-- The hourly-distinct-values rollup template of merge_parquet_files:
MIN of the timestamp and SUM of count, grouped by the given column list,
ordered by the aggregated timestamp descending. -/
def distinct_merge_sql (ts fields_str : String) : String :=
  s!"SELECT MIN({ts}) AS {ts}, SUM(count) as count, {fields_str} FROM tbl GROUP BY {fields_str} ORDER BY {ts} DESC"

/-- The default compaction template of merge_parquet_files: all rows
ordered by the timestamp column descending. -/
def default_merge_sql (ts : String) : String :=
  s!"SELECT * FROM tbl ORDER BY {ts} DESC"

/-- The grouping columns of the rollup template: every schema field other
than the timestamp column and count, in schema order. -/
def distinct_group_fields (cfg : Config) (schema : Schema) : List String :=
  (schema.filter
    (fun f => f.name != cfg.common.column_timestamp && f.name != "count")).map Field.name

/-- The SQL template chosen by merge_parquet_files (exec.rs lines 84-113):
index streams get the deleted-file-name exclusion query, metadata streams
carrying the distinct-values marker get the rollup aggregation query when
the hourly option is on, and everything else gets the plain ordered
selection. -/
def merge_parquet_files_sql (cfg : Config) (stream_type : StreamType)
    (stream_name : String) (schema : Schema) : String :=
  if stream_type = StreamType.index then
    index_merge_sql cfg.common.column_timestamp
  else if cfg.limit.distinct_values_hourly = true ∧
      stream_type = StreamType.metadata ∧
      DISTINCT_STREAM_PREFIX.data.isPrefixOf stream_name.data = true then
    let fields := distinct_group_fields cfg schema
    let fields_str := String.intercalate ", " fields
    distinct_merge_sql cfg.common.column_timestamp fields_str
  else
    default_merge_sql cfg.common.column_timestamp

/-- The session configuration values set by create_session_config. Options
the code only sets through set_bool are Option Bool valued: none means the
engine default was left in place. -/
structure SessionConfig where
  batch_size : Nat
  target_partitions : Nat
  information_schema : Bool
  listing_table_ignore_subdirectory : Bool
  dialect : String
  bloom_filter_on_read : Option Bool
  split_file_groups_by_statistics : Option Bool
  skip_physical_aggregate_schema_check : Option Bool
  deriving DecidableEq, Repr

/-- create_session_config (exec.rs lines 163-208): resolve the target
partition count (zero request falls back to cpu_num, otherwise clamp to the
configured minimum, a still-zero result falls to the hard floor), then set
batch size, dialect, introspection, the bloom-filter switches in order
(enable first, force-disable second), the statistics split when sorted, and
the aggregate schema check skip. -/
def create_session_config (cfg : Config) (sorted_by_time : Bool)
    (target_partitions : Nat) : SessionConfig :=
  let target_partitions :=
    if target_partitions = 0 then cfg.limit.cpu_num
    else max cfg.limit.datafusion_min_partition_num target_partitions
  let target_partitions :=
    if target_partitions = 0 then DATAFUSION_MIN_PARTITION else target_partitions
  let bloom : Option Bool := none
  let bloom := if cfg.common.bloom_filter_enabled then some true else bloom
  let bloom := if cfg.common.bloom_filter_disabled_on_search then some false else bloom
  { batch_size := PARQUET_BATCH_SIZE
    target_partitions := target_partitions
    information_schema := true
    listing_table_ignore_subdirectory := false
    dialect := "PostgreSQL"
    bloom_filter_on_read := bloom
    split_file_groups_by_statistics := if sorted_by_time then some true else none
    skip_physical_aggregate_schema_check := some true }

/-- Modelled from the spec: the three memory-pool strategies (the enum lives
in the sibling module outside the provided source). -/
inductive MemoryPoolType where
  | greedy
  | fair
  | none
  deriving DecidableEq, Repr

/-- Modelled from the spec: parsing the configured memory-pool strategy
string. The spec recognizes exactly three strategies, unbounded (none),
strict ceiling (greedy) and fair-spill (fair); any other string is a parse
error carrying the offending string. -/
def MemoryPoolType.from_str (s : String) : Except String MemoryPoolType :=
  if s = "none" then .ok MemoryPoolType.none
  else if s = "greedy" then .ok MemoryPoolType.greedy
  else if s = "fair" then .ok MemoryPoolType.fair
  else .error s

/-- A constructed memory pool instance with its configured size. -/
inductive MemPool where
  | greedyMemoryPool (size : Nat)
  | fairSpillPool (size : Nat)
  deriving DecidableEq, Repr

/-- The runtime environment values produced by create_runtime_env: the
registered object-store schemes, the optional shared file-statistics cache,
and the optional memory pool (no pool means unbounded admission). -/
structure RuntimeEnv where
  object_store_schemes : List String
  file_statistics_cache : Bool
  memory_pool : Option MemPool
  deriving DecidableEq, Repr

/-- The memory-pool sizing step of create_runtime_env: the requested limit
raised to the 256 MiB floor. -/
def runtime_memory_size (memory_limit : Nat) : Nat :=
  max DATAFUSION_MIN_MEM memory_limit

/-- create_runtime_env (exec.rs lines 210-251): register the memory, wal and
tmpfs stores, attach the global statistics cache when the configured
capacity is positive, raise the memory size to the 256 MiB floor, parse the
configured pool strategy (failure is an invalid-configuration execution
error), and install the corresponding pool (none installs no pool). -/
def create_runtime_env (cfg : Config) (memory_limit : Nat) :
    Except DataFusionError RuntimeEnv :=
  let memory_size := runtime_memory_size memory_limit
  match MemoryPoolType.from_str cfg.memory_cache.datafusion_memory_pool with
  | .error e =>
      .error (.execution s!"Invalid datafusion memory pool type: {e}")
  | .ok mem_pool =>
      .ok { object_store_schemes := ["memory", "wal", "tmpfs"]
            file_statistics_cache := cfg.limit.datafusion_file_stat_cache_max_entries > 0
            memory_pool :=
              match mem_pool with
              | MemoryPoolType.greedy => some (.greedyMemoryPool memory_size)
              | MemoryPoolType.fair => some (.fairSpillPool memory_size)
              | MemoryPoolType.none => Option.none }

/-- Modelled from the spec: the named multi-tenant resource classes of the
enterprise workgroup feature; their definition lives outside the provided
source, only parse success or failure matters here. -/
inductive WorkGroup where
  | short
  | long
  deriving DecidableEq, Repr

/-- The enterprise search-group configuration switch read by the resource
governor. -/
structure O2SearchGroupCfg where
  cpu_limit_enabled : Bool
  deriving DecidableEq, Repr

/-- get_cpu_and_mem_limit (exec.rs lines 462-486). The two external calls,
WorkGroup parsing and the live-resource resolution, enter as function
parameters: from_str_wg returns Option.none when the name is not a known
class, and get_dynamic_resource returns the live (cpu, mem) percentages or
a backend error. An absent or unparseable workgroup passes the nominal pair
through; a resolution failure becomes an execution error; otherwise memory
is always scaled by mem/100 and partitions by cpu/100 only under the
cpu-limiting switch. -/
def get_cpu_and_mem_limit (o2cfg : O2SearchGroupCfg)
    (from_str_wg : String → Option WorkGroup)
    (get_dynamic_resource : WorkGroup → Except String (Nat × Nat))
    (work_group : Option String) (target_partitions memory_size : Nat) :
    Except DataFusionError (Nat × Nat) :=
  match work_group with
  | Option.none => .ok (target_partitions, memory_size)
  | some wg =>
    match from_str_wg wg with
    | Option.none => .ok (target_partitions, memory_size)
    | some w =>
      match get_dynamic_resource w with
      | .error e => .error (.execution s!"Failed to get dynamic resource: {e}")
      | .ok (cpu, mem) =>
        let target_partitions :=
          if o2cfg.cpu_limit_enabled then target_partitions * cpu / 100
          else target_partitions
        let memory_size := memory_size * mem / 100
        .ok (target_partitions, memory_size)

/-- One segment file key as far as this unit inspects it. -/
structure FileKey where
  key : String
  deriving DecidableEq, Repr

/-- A search session handed to table registration. -/
structure SearchSession where
  id : String
  storage_type : StorageType
  work_group : Option String
  target_partitions : Nat
  deriving DecidableEq, Repr

/-- One file-list staging call made against the storage fabric
(file_list.set in the source): session id, schema key, file list. -/
structure StageEvent where
  session_id : String
  schema_key : String
  files : List FileKey
  deriving DecidableEq, Repr

/-- One file-level sort expression: column expression, direction,
null ordering. -/
structure SortExpr where
  expr : String
  asc : Bool
  nulls_first : Bool
  deriving DecidableEq, Repr

/-- The listing options built by create_parquet_table. -/
structure ListingOptions where
  file_extension : String
  target_partitions : Nat
  collect_stat : Bool
  file_sort_order : List (List SortExpr)
  deriving DecidableEq, Repr

/-- An externally supplied row-level index filter; opaque pass-through
here. -/
structure IndexCondition where
  condition : String
  deriving DecidableEq, Repr

/-- The listing table produced by create_parquet_table: listing URL,
options, the schema handed to the listing configuration, the pass-through
hints, and whether the shared statistics cache was attached. -/
structure NewListingTable where
  url : String
  listing_options : ListingOptions
  schema : Schema
  rules : List (String × DataType)
  index_condition : Option IndexCondition
  fst_fields : List String
  has_cache : Bool
  deriving DecidableEq, Repr

/-- Schema::field_with_name of the Arrow schema, as used by
create_parquet_table: the field of that name, when present. -/
def field_with_name (schema : Schema) (name : String) : Option Field :=
  schema.find? (fun f => f.name == name)

/-- The timestamp normalization step of create_parquet_table (exec.rs lines
433-453): when the timestamp column exists and is nullable, every field of
that name is replaced by a non-nullable Int64 field; otherwise the schema
passes through unchanged. -/
def normalize_timestamp_schema (cfg : Config) (schema : Schema) : Schema :=
  match field_with_name schema cfg.common.column_timestamp with
  | some f =>
      if f.nullable then
        schema.map (fun x =>
          if x.name == cfg.common.column_timestamp then
            { name := cfg.common.column_timestamp
              data_type := DataType.int64
              nullable := false }
          else x)
      else schema
  | Option.none => schema

/-- The nominal partition count create_parquet_table computes before the
resource governor runs (exec.rs lines 372-379): a zero request falls back
to cpu_num, otherwise the request is clamped to the configured minimum. -/
def parquet_nominal_partitions (cfg : Config) (session : SearchSession) : Nat :=
  if session.target_partitions = 0 then cfg.limit.cpu_num
  else max cfg.limit.datafusion_min_partition_num session.target_partitions

/-- The listing URL of a memory-backend registration. -/
def memory_listing_url (id key : String) : String :=
  s!"memory:///{id}/schema={key}/"

/-- The listing URL of a wal-backend registration. -/
def wal_listing_url (id key : String) : String :=
  s!"wal:///{id}/schema={key}/"

/-- The listing URL of a tmpfs-backend registration. -/
def tmpfs_listing_url (id : String) : String :=
  s!"tmpfs:///{id}/"

/-- create_parquet_table (exec.rs lines 361-460). External inputs enter as
parameters: the governor externals as in get_cpu_and_mem_limit, and
hash_key for the schema fingerprint (SchemaExt::hash_key, defined outside
the provided source). The first component of the result records the
staging calls made against the storage fabric, in order. -/
def create_parquet_table (cfg : Config) (o2cfg : O2SearchGroupCfg)
    (from_str_wg : String → Option WorkGroup)
    (get_dynamic_resource : WorkGroup → Except String (Nat × Nat))
    (hash_key : Schema → String)
    (session : SearchSession) (schema : Schema) (files : List FileKey)
    (rules : List (String × DataType)) (sorted_by_time : Bool)
    (file_stat_cache : Bool) (index_condition : Option IndexCondition)
    (fst_fields : List String) :
    List StageEvent × Except DataFusionError NewListingTable :=
  match get_cpu_and_mem_limit o2cfg from_str_wg get_dynamic_resource
      session.work_group (parquet_nominal_partitions cfg session) 0 with
  | .error e => ([], .error e)
  | .ok (target_partitions, _) =>
    let target_partitions :=
      if target_partitions = 0 then DATAFUSION_MIN_PARTITION else target_partitions
    let listing_options : ListingOptions :=
      { file_extension := "parquet"
        target_partitions := target_partitions
        collect_stat := true
        file_sort_order :=
          if sorted_by_time then
            [[{ expr := cfg.common.column_timestamp
                asc := false
                nulls_first := false }]]
          else [] }
    let schema_key := hash_key schema
    let staged :
        List StageEvent × Except DataFusionError String :=
      if session.storage_type = StorageType.memory then
        ([⟨session.id, schema_key, files⟩],
         .ok (memory_listing_url session.id schema_key))
      else if session.storage_type = StorageType.wal then
        ([⟨session.id, schema_key, files⟩],
         .ok (wal_listing_url session.id schema_key))
      else if session.storage_type = StorageType.tmpfs then
        ([], .ok (tmpfs_listing_url session.id))
      else
        ([], .error (.execution s!"Unsupported storage_type {reprStr session.storage_type}"))
    match staged with
    | (events, .error e) => (events, .error e)
    | (events, .ok url) =>
      let schema := normalize_timestamp_schema cfg schema
      let table : NewListingTable :=
        { url := url
          listing_options := listing_options
          schema := schema
          rules := rules
          index_condition := index_condition
          fst_fields := fst_fields
          has_cache :=
            (session.storage_type != StorageType.tmpfs) && file_stat_cache }
      (events, .ok table)

/-- The sortedness test of register_table (exec.rs lines 332-334): the sort
key is sorted-by-time exactly when it is one entry naming the configured
timestamp column with the descending flag set. -/
def register_table_sorted_by_time (cfg : Config)
    (sort_key : List (String × Bool)) : Bool :=
  sort_key.length == 1 &&
    (match sort_key with
     | (c, d) :: _ => c == cfg.common.column_timestamp && d
     | [] => false)

/-- The session context assembled by prepare_datafusion_context. -/
structure SessionContext where
  session_config : SessionConfig
  runtime_env : RuntimeEnv
  with_extra_optimizer_rules : Bool
  with_join_reorder_rule : Bool
  with_query_planner : Bool
  deriving DecidableEq, Repr

/-- prepare_datafusion_context (exec.rs lines 253-283), enterprise shape:
the governor resolves the (partitions, memory) pair first, then the
session configuration and runtime environment are built from its output;
optimizer extras and the query-planner override follow their switches.
optimizer_rules carries only whether the supplied rule list was empty. -/
def prepare_datafusion_context (cfg : Config) (o2cfg : O2SearchGroupCfg)
    (from_str_wg : String → Option WorkGroup)
    (get_dynamic_resource : WorkGroup → Except String (Nat × Nat))
    (work_group : Option String) (optimizer_rules_nonempty : Bool)
    (sorted_by_time : Bool) (target_partitions : Nat) :
    Except DataFusionError SessionContext :=
  match get_cpu_and_mem_limit o2cfg from_str_wg get_dynamic_resource
      work_group target_partitions cfg.memory_cache.datafusion_max_size with
  | .error e => .error e
  | .ok (target_partition, memory_size) =>
    let session_config := create_session_config cfg sorted_by_time target_partition
    match create_runtime_env cfg memory_size with
    | .error e => .error e
    | .ok runtime_env =>
      .ok { session_config := session_config
            runtime_env := runtime_env
            with_extra_optimizer_rules := optimizer_rules_nonempty
            with_join_reorder_rule := optimizer_rules_nonempty
            with_query_planner := cfg.common.feature_join_match_one_enabled }

/-- register_table (exec.rs lines 323-358): derive the sorted-by-time flag
from the sort key, build the context with it, build the parquet table with
the same flag and the cache presence taken from the runtime environment,
and register the table under the given name. The staging calls of the
inner create_parquet_table are surfaced in the first component. -/
def register_table (cfg : Config) (o2cfg : O2SearchGroupCfg)
    (from_str_wg : String → Option WorkGroup)
    (get_dynamic_resource : WorkGroup → Except String (Nat × Nat))
    (hash_key : Schema → String)
    (session : SearchSession) (schema : Schema) (table_name : String)
    (files : List FileKey) (rules : List (String × DataType))
    (sort_key : List (String × Bool)) :
    List StageEvent ×
      Except DataFusionError (SessionContext × String × NewListingTable) :=
  let sorted_by_time := register_table_sorted_by_time cfg sort_key
  match prepare_datafusion_context cfg o2cfg from_str_wg get_dynamic_resource
      session.work_group false sorted_by_time session.target_partitions with
  | .error e => ([], .error e)
  | .ok ctx =>
    match create_parquet_table cfg o2cfg from_str_wg get_dynamic_resource
        hash_key session schema files rules sorted_by_time
        ctx.runtime_env.file_statistics_cache Option.none [] with
    | (events, .error e) => (events, .error e)
    | (events, .ok table) => (events, .ok (ctx, table_name, table))

/-- A concrete configuration used by the witness theorems. -/
def cfgEx : Config :=
  { common :=
      { column_timestamp := "_timestamp"
        bloom_filter_enabled := true
        bloom_filter_disabled_on_search := false
        feature_join_match_one_enabled := false }
    limit :=
      { cpu_num := 4
        datafusion_min_partition_num := 2
        datafusion_file_stat_cache_max_entries := 0
        distinct_values_hourly := true }
    memory_cache :=
      { datafusion_memory_pool := "fair"
        datafusion_max_size := 1000 } }

/-- A concrete enterprise search-group configuration used by the witness
theorems. -/
def o2Ex : O2SearchGroupCfg := { cpu_limit_enabled := false }

/-- A concrete workgroup parser used by the witness theorems: no name is a
known class. -/
def wsEx : String → Option WorkGroup := fun _ => Option.none

/-- A concrete live-resource resolver used by the witness theorems. -/
def gdEx : WorkGroup → Except String (Nat × Nat) := fun _ => .ok (50, 80)

/-- A concrete schema fingerprint function used by the witness theorems. -/
def hkEx : Schema → String := fun _ => "abc"

/-- A concrete two-field schema used by the witness theorems: a nullable
timestamp column and a message column. -/
def schemaEx : Schema :=
  [{ name := "_timestamp", data_type := DataType.int64, nullable := true },
   { name := "msg", data_type := DataType.utf8, nullable := true }]

/-- A concrete file key used by the witness theorems. -/
def fkEx : FileKey := { key := "files/f1.parquet" }

/-- cfgEx with both bloom-filter switches set, used by the witness
theorems. -/
def cfgBothEx : Config :=
  { cfgEx with common := { cfgEx.common with
      bloom_filter_enabled := true
      bloom_filter_disabled_on_search := true } }

/-- cfgEx with only the bloom-filter force-disable switch set, used by the
witness theorems. -/
def cfgDisEx : Config :=
  { cfgEx with common := { cfgEx.common with
      bloom_filter_enabled := false
      bloom_filter_disabled_on_search := true } }

/-- cfgEx with an unrecognized memory-pool strategy string, used by the
witness theorems. -/
def cfgBadPoolEx : Config :=
  { cfgEx with memory_cache := { cfgEx.memory_cache with
      datafusion_memory_pool := "bogus" } }

/-- cfgEx with the greedy (strict-ceiling) memory-pool strategy, used by
the witness theorems. -/
def cfgGreedyEx : Config :=
  { cfgEx with memory_cache := { cfgEx.memory_cache with
      datafusion_memory_pool := "greedy" } }

/-- cfgEx with the unbounded (none) memory-pool strategy, used by the
witness theorems. -/
def cfgNonePoolEx : Config :=
  { cfgEx with memory_cache := { cfgEx.memory_cache with
      datafusion_memory_pool := "none" } }

/-- A concrete session on the given storage backend, used by the witness
theorems. -/
def sessEx (st : StorageType) : SearchSession :=
  { id := "sid", storage_type := st
    work_group := Option.none, target_partitions := 8 }

/-- Claim C1: merge_parquet_files selects its SQL query template by stream
semantics: an index-type stream gets the query selecting all rows whose
file_name is not among the file names marked deleted, ordered by the
timestamp column descending; a metadata stream whose name starts with the
distinct-values marker gets, only when the hourly rollup option is
enabled, the query grouping by every column other than the timestamp
column and count with MIN of the timestamp and SUM of count, ordered by
the aggregated timestamp descending; every other case gets the query
selecting all rows ordered by the timestamp column descending. -/
theorem merge_parquet_files_sql_template_selection
    (cfg : Config) (st : StreamType) (stream_name : String) (schema : Schema) :
    (st = StreamType.index →
      merge_parquet_files_sql cfg st stream_name schema =
        index_merge_sql cfg.common.column_timestamp) ∧
    (st = StreamType.metadata →
      cfg.limit.distinct_values_hourly = true →
      DISTINCT_STREAM_PREFIX.data.isPrefixOf stream_name.data = true →
      merge_parquet_files_sql cfg st stream_name schema =
        distinct_merge_sql cfg.common.column_timestamp
          (String.intercalate ", " (distinct_group_fields cfg schema))) ∧
    (st ≠ StreamType.index →
      ¬(cfg.limit.distinct_values_hourly = true ∧ st = StreamType.metadata ∧
          DISTINCT_STREAM_PREFIX.data.isPrefixOf stream_name.data = true) →
      merge_parquet_files_sql cfg st stream_name schema =
        default_merge_sql cfg.common.column_timestamp) := by
  refine ⟨?_, ?_, ?_⟩
  · intro h
    simp [merge_parquet_files_sql, h]
  · intro h1 h2 h3
    have hne : st ≠ StreamType.index := by
      rw [h1]
      intro hc
      exact StreamType.noConfusion hc
    simp [merge_parquet_files_sql, hne, h1, h2, h3]
  · intro h1 h2
    simp only [merge_parquet_files_sql, if_neg h1, if_neg h2]

/-- Witness for C1: the three templates at concrete inputs. -/
theorem merge_parquet_files_sql_template_selection_witness :
    merge_parquet_files_sql cfgEx StreamType.index "idx" schemaEx =
      index_merge_sql "_timestamp" ∧
    merge_parquet_files_sql cfgEx StreamType.metadata "distinct_values_t" schemaEx =
      distinct_merge_sql "_timestamp" "msg" ∧
    merge_parquet_files_sql cfgEx StreamType.logs "app" schemaEx =
      default_merge_sql "_timestamp" := by
  refine ⟨?_, ?_, ?_⟩
  · exact (merge_parquet_files_sql_template_selection cfgEx StreamType.index
      "idx" schemaEx).1 rfl
  · have h := (merge_parquet_files_sql_template_selection cfgEx
      StreamType.metadata "distinct_values_t" schemaEx).2.1 rfl rfl (by decide)
    rw [h]
    rfl
  · exact (merge_parquet_files_sql_template_selection cfgEx StreamType.logs
      "app" schemaEx).2.2 (by decide) (by decide)

/-- Claim C2: for every schema passed to create_parquet_table whose
timestamp column is declared nullable, the schema handed to the listing
configuration has exactly that field rewritten to a non-nullable Int64
field and every other field unchanged; if the timestamp column is absent
or already non-nullable the schema passes through unchanged; and the
schema stored in the listing configuration is exactly the output of this
normalization step. -/
theorem create_parquet_table_timestamp_normalization
    (cfg : Config) (schema : Schema) :
    (field_with_name schema cfg.common.column_timestamp = Option.none →
      normalize_timestamp_schema cfg schema = schema) ∧
    (∀ f, field_with_name schema cfg.common.column_timestamp = some f →
      f.nullable = false → normalize_timestamp_schema cfg schema = schema) ∧
    (∀ f, field_with_name schema cfg.common.column_timestamp = some f →
      f.nullable = true →
      (normalize_timestamp_schema cfg schema).length = schema.length ∧
      ∀ i (hi : i < schema.length)
        (hr : i < (normalize_timestamp_schema cfg schema).length),
        ((schema.get ⟨i, hi⟩).name ≠ cfg.common.column_timestamp →
          (normalize_timestamp_schema cfg schema).get ⟨i, hr⟩ =
            schema.get ⟨i, hi⟩) ∧
        ((schema.get ⟨i, hi⟩).name = cfg.common.column_timestamp →
          (normalize_timestamp_schema cfg schema).get ⟨i, hr⟩ =
            { name := cfg.common.column_timestamp
              data_type := DataType.int64
              nullable := false })) ∧
    (∀ o2cfg ws gd hk session files rules s fc ic fst_fields events t,
      create_parquet_table cfg o2cfg ws gd hk session schema files rules s fc
          ic fst_fields = (events, .ok t) →
      t.schema = normalize_timestamp_schema cfg schema) := by
  refine ⟨?_, ?_, ?_, ?_⟩
  · intro h
    simp [normalize_timestamp_schema, h]
  · intro f hf hn
    simp [normalize_timestamp_schema, hf, hn]
  · intro f hf hn
    have hmap : normalize_timestamp_schema cfg schema =
        schema.map (fun x =>
          if x.name == cfg.common.column_timestamp then
            { name := cfg.common.column_timestamp
              data_type := DataType.int64
              nullable := false }
          else x) := by
      simp [normalize_timestamp_schema, hf, hn]
    refine ⟨by simp [hmap], ?_⟩
    intro i hi hr
    constructor
    · intro hname
      have hname2 : ¬ schema[i].name = cfg.common.column_timestamp := by
        simpa [List.get_eq_getElem] using hname
      simp only [hmap, List.get_eq_getElem, List.getElem_map]
      simp [hname2]
    · intro hname
      have hname2 : schema[i].name = cfg.common.column_timestamp := by
        simpa [List.get_eq_getElem] using hname
      simp only [hmap, List.get_eq_getElem, List.getElem_map]
      simp [hname2]
  · intro o2cfg ws gd hk session files rules s fc ic fst_fields events t h
    rcases hg : get_cpu_and_mem_limit o2cfg ws gd session.work_group
        (parquet_nominal_partitions cfg session) 0 with e | pm
    · simp only [create_parquet_table, hg] at h
      simp at h
    · obtain ⟨tp, m⟩ := pm
      simp only [create_parquet_table, hg] at h
      by_cases h1 : session.storage_type = StorageType.memory
      · simp only [if_pos h1] at h
        injection h with hev hok
        injection hok with ht
        rw [← ht]
      · simp only [if_neg h1] at h
        by_cases h2 : session.storage_type = StorageType.wal
        · simp only [if_pos h2] at h
          injection h with hev hok
          injection hok with ht
          rw [← ht]
        · simp only [if_neg h2] at h
          by_cases h3 : session.storage_type = StorageType.tmpfs
          · simp only [if_pos h3] at h
            injection h with hev hok
            injection hok with ht
            rw [← ht]
          · simp only [if_neg h3] at h
            simp at h

/-- Witness for C2: on the concrete schema with a nullable timestamp, the
normalized schema keeps its length, rewrites the timestamp field to a
non-nullable Int64 field and leaves the message field unchanged. -/
theorem create_parquet_table_timestamp_normalization_witness :
    (normalize_timestamp_schema cfgEx schemaEx).length = schemaEx.length ∧
    (normalize_timestamp_schema cfgEx schemaEx).get ⟨0, by decide⟩ =
      { name := "_timestamp", data_type := DataType.int64, nullable := false } ∧
    (normalize_timestamp_schema cfgEx schemaEx).get ⟨1, by decide⟩ =
      { name := "msg", data_type := DataType.utf8, nullable := true } ∧
    normalize_timestamp_schema cfgEx
      [{ name := "msg", data_type := DataType.utf8, nullable := true }] =
      [{ name := "msg", data_type := DataType.utf8, nullable := true }] ∧
    normalize_timestamp_schema cfgEx
      [{ name := "_timestamp", data_type := DataType.int64, nullable := false }] =
      [{ name := "_timestamp", data_type := DataType.int64, nullable := false }] ∧
    ({ url := "memory:///sid/schema=abc/"
       listing_options :=
         { file_extension := "parquet"
           target_partitions := 8
           collect_stat := true
           file_sort_order := [] }
       schema := [{ name := "_timestamp"
                    data_type := DataType.int64
                    nullable := false },
                  { name := "msg"
                    data_type := DataType.utf8
                    nullable := true }]
       rules := []
       index_condition := Option.none
       fst_fields := []
       has_cache := false } : NewListingTable).schema =
      normalize_timestamp_schema cfgEx schemaEx := by
  have h := (create_parquet_table_timestamp_normalization cfgEx schemaEx).2.2.1
    { name := "_timestamp", data_type := DataType.int64, nullable := true }
    (by decide) rfl
  refine ⟨h.1, ?_, ?_, ?_, ?_, ?_⟩
  · exact (h.2 0 (by decide) (by decide)).2 (by decide)
  · have h2 := (h.2 1 (by decide) (by decide)).1 (by decide)
    rw [h2]
    decide
  · exact (create_parquet_table_timestamp_normalization cfgEx
      [{ name := "msg", data_type := DataType.utf8, nullable := true }]).1 rfl
  · exact (create_parquet_table_timestamp_normalization cfgEx
      [{ name := "_timestamp", data_type := DataType.int64,
         nullable := false }]).2.1
      { name := "_timestamp", data_type := DataType.int64, nullable := false }
      (by decide) rfl
  · exact (create_parquet_table_timestamp_normalization cfgEx
      schemaEx).2.2.2 o2Ex wsEx gdEx hkEx (sessEx StorageType.memory) [] []
      false false Option.none []
      [{ session_id := "sid", schema_key := "abc", files := [] }] _ rfl

/-- Claim C3: for every workgroup with live allowance (cpu, mem), the
resource governor always scales the memory ceiling to memory times mem
over 100, and scales the partition count to partitions times cpu over 100
only when the cpu-limiting switch is enabled, leaving the partition count
unchanged otherwise. -/
theorem get_cpu_and_mem_limit_scaling (o2cfg : O2SearchGroupCfg)
    (ws : String → Option WorkGroup)
    (gd : WorkGroup → Except String (Nat × Nat))
    (wg_name : String) (w : WorkGroup) (cpu mem p m : Nat)
    (hparse : ws wg_name = some w) (hdyn : gd w = .ok (cpu, mem)) :
    get_cpu_and_mem_limit o2cfg ws gd (some wg_name) p m =
      .ok ((if o2cfg.cpu_limit_enabled then p * cpu / 100 else p),
        m * mem / 100) := by
  simp [get_cpu_and_mem_limit, hparse, hdyn]

/-- Witness for C3: with cpu 50 and mem 80, nominal (8, 1000) scales to
(4, 800) under cpu limiting and to (8, 800) without it. -/
theorem get_cpu_and_mem_limit_scaling_witness :
    get_cpu_and_mem_limit { cpu_limit_enabled := true }
        (fun _ => some WorkGroup.long) gdEx (some "long") 8 1000 =
      .ok (4, 800) ∧
    get_cpu_and_mem_limit { cpu_limit_enabled := false }
        (fun _ => some WorkGroup.long) gdEx (some "long") 8 1000 =
      .ok (8, 800) := by
  constructor
  · have h := get_cpu_and_mem_limit_scaling { cpu_limit_enabled := true }
      (fun _ => some WorkGroup.long) gdEx "long" WorkGroup.long 50 80 8 1000
      rfl rfl
    rw [h]
    rfl
  · have h := get_cpu_and_mem_limit_scaling { cpu_limit_enabled := false }
      (fun _ => some WorkGroup.long) gdEx "long" WorkGroup.long 50 80 8 1000
      rfl rfl
    rw [h]
    rfl

/-- Claim C6: if the workgroup name is absent, or present but not a known
workgroup class, the nominal (partition count, memory ceiling) pair is
returned unchanged with no error; if the live-resource resolution for a
parsed workgroup fails, the call returns an error rather than
substituting defaults. -/
theorem get_cpu_and_mem_limit_error_handling (o2cfg : O2SearchGroupCfg)
    (ws : String → Option WorkGroup)
    (gd : WorkGroup → Except String (Nat × Nat)) (p m : Nat) :
    (get_cpu_and_mem_limit o2cfg ws gd Option.none p m = .ok (p, m)) ∧
    (∀ s, ws s = Option.none →
      get_cpu_and_mem_limit o2cfg ws gd (some s) p m = .ok (p, m)) ∧
    (∀ s w e, ws s = some w → gd w = .error e →
      get_cpu_and_mem_limit o2cfg ws gd (some s) p m =
        .error (.execution s!"Failed to get dynamic resource: {e}")) := by
  refine ⟨rfl, ?_, ?_⟩
  · intro s hs
    simp [get_cpu_and_mem_limit, hs]
  · intro s w e hw he
    simp [get_cpu_and_mem_limit, hw, he]

/-- Witness for C6: an absent name and an unknown name pass (8, 1000)
through unchanged; a failing resolution for a parsed workgroup yields the
execution error. -/
theorem get_cpu_and_mem_limit_error_handling_witness :
    get_cpu_and_mem_limit o2Ex wsEx gdEx Option.none 8 1000 = .ok (8, 1000) ∧
    get_cpu_and_mem_limit o2Ex wsEx gdEx (some "nosuch") 8 1000 =
      .ok (8, 1000) ∧
    get_cpu_and_mem_limit o2Ex (fun _ => some WorkGroup.short)
        (fun _ => .error "backend down") (some "short") 8 1000 =
      .error (.execution "Failed to get dynamic resource: backend down") := by
  refine ⟨(get_cpu_and_mem_limit_error_handling o2Ex wsEx gdEx 8 1000).1,
    (get_cpu_and_mem_limit_error_handling o2Ex wsEx gdEx 8 1000).2.1
      "nosuch" rfl, ?_⟩
  have h := (get_cpu_and_mem_limit_error_handling o2Ex
    (fun _ => some WorkGroup.short) (fun _ => .error "backend down")
    8 1000).2.2 "short" WorkGroup.short "backend down" rfl rfl
  rw [h]
  rfl

/-- Claim C4: context and table-provider construction resolve a requested
partition count as: zero falls back to the configured CPU-derived default,
otherwise the maximum of the configured minimum and the request; a still
zero result falls to the hard floor of 2, so the resolved partition count
is never 0. The table-provider conjunct covers any outcome of the
interposed resource governor. -/
theorem resolved_target_partitions_never_zero (cfg : Config)
    (sorted_by_time : Bool) (tp : Nat) :
    ((create_session_config cfg sorted_by_time tp).target_partitions =
      (if (if tp = 0 then cfg.limit.cpu_num
           else max cfg.limit.datafusion_min_partition_num tp) = 0
       then DATAFUSION_MIN_PARTITION
       else (if tp = 0 then cfg.limit.cpu_num
             else max cfg.limit.datafusion_min_partition_num tp))) ∧
    (create_session_config cfg sorted_by_time tp).target_partitions ≠ 0 ∧
    (∀ o2cfg ws gd hk session schema files rules s fc ic fst_fields events t,
      create_parquet_table cfg o2cfg ws gd hk session schema files rules s fc
          ic fst_fields = (events, .ok t) →
      t.listing_options.target_partitions ≠ 0) := by
  refine ⟨rfl, ?_, ?_⟩
  · by_cases h0 : (if tp = 0 then cfg.limit.cpu_num
        else max cfg.limit.datafusion_min_partition_num tp) = 0
    · simp only [create_session_config, if_pos h0]
      decide
    · simp only [create_session_config, if_neg h0]
      exact h0
  · intro o2cfg ws gd hk session schema files rules s fc ic fst_fields events t h
    rcases hg : get_cpu_and_mem_limit o2cfg ws gd session.work_group
        (parquet_nominal_partitions cfg session) 0 with e | pm
    · simp only [create_parquet_table, hg] at h
      simp at h
    · obtain ⟨tp2, m⟩ := pm
      simp only [create_parquet_table, hg] at h
      have hopts : t.listing_options.target_partitions =
          (if tp2 = 0 then DATAFUSION_MIN_PARTITION else tp2) := by
        by_cases h1 : session.storage_type = StorageType.memory
        · simp only [if_pos h1] at h
          injection h with hev hok
          injection hok with ht
          rw [← ht]
        · simp only [if_neg h1] at h
          by_cases h2 : session.storage_type = StorageType.wal
          · simp only [if_pos h2] at h
            injection h with hev hok
            injection hok with ht
            rw [← ht]
          · simp only [if_neg h2] at h
            by_cases h3 : session.storage_type = StorageType.tmpfs
            · simp only [if_pos h3] at h
              injection h with hev hok
              injection hok with ht
              rw [← ht]
            · simp only [if_neg h3] at h
              simp at h
      rw [hopts]
      split
      · decide
      · assumption

/-- Witness for C4: the resolved counts at concrete inputs are nonzero. -/
theorem resolved_target_partitions_never_zero_witness :
    (create_session_config cfgEx true 8).target_partitions ≠ 0 ∧
    ({ url := "memory:///sid/schema=abc/"
       listing_options :=
         { file_extension := "parquet"
           target_partitions := 8
           collect_stat := true
           file_sort_order := [] }
       schema := [{ name := "_timestamp"
                    data_type := DataType.int64
                    nullable := false },
                  { name := "msg"
                    data_type := DataType.utf8
                    nullable := true }]
       rules := []
       index_condition := Option.none
       fst_fields := []
       has_cache := false } : NewListingTable).listing_options.target_partitions
      ≠ 0 := by
  refine ⟨(resolved_target_partitions_never_zero cfgEx true 8).2.1, ?_⟩
  exact (resolved_target_partitions_never_zero cfgEx true 8).2.2
    o2Ex wsEx gdEx hkEx
    { id := "sid", storage_type := StorageType.memory
      work_group := Option.none, target_partitions := 8 }
    schemaEx [] [] false false Option.none []
    [{ session_id := "sid", schema_key := "abc", files := [] }] _ rfl

/-- Claim C5: for every session passed to create_parquet_table (whose
resource-governor step succeeds), a memory or wal storage type stages the
file list and uses the listing URL scheme:///id/schema=key/, the tmpfs
storage type makes no staging call and uses tmpfs:///id/, and any other
storage type fails with the unsupported-storage-type error having made no
staging call. -/
theorem create_parquet_table_storage_dispatch (cfg : Config)
    (o2cfg : O2SearchGroupCfg) (ws : String → Option WorkGroup)
    (gd : WorkGroup → Except String (Nat × Nat)) (hk : Schema → String)
    (session : SearchSession) (schema : Schema) (files : List FileKey)
    (rules : List (String × DataType)) (s fc : Bool)
    (ic : Option IndexCondition) (fst_fields : List String) (pm : Nat × Nat)
    (hgov : get_cpu_and_mem_limit o2cfg ws gd session.work_group
        (parquet_nominal_partitions cfg session) 0 = .ok pm) :
    (session.storage_type = StorageType.memory →
      (create_parquet_table cfg o2cfg ws gd hk session schema files rules s fc
          ic fst_fields).1 =
        [{ session_id := session.id, schema_key := hk schema, files := files }] ∧
      ∃ t, (create_parquet_table cfg o2cfg ws gd hk session schema files rules
          s fc ic fst_fields).2 = .ok t ∧
        t.url = memory_listing_url session.id (hk schema)) ∧
    (session.storage_type = StorageType.wal →
      (create_parquet_table cfg o2cfg ws gd hk session schema files rules s fc
          ic fst_fields).1 =
        [{ session_id := session.id, schema_key := hk schema, files := files }] ∧
      ∃ t, (create_parquet_table cfg o2cfg ws gd hk session schema files rules
          s fc ic fst_fields).2 = .ok t ∧
        t.url = wal_listing_url session.id (hk schema)) ∧
    (session.storage_type = StorageType.tmpfs →
      (create_parquet_table cfg o2cfg ws gd hk session schema files rules s fc
          ic fst_fields).1 = [] ∧
      ∃ t, (create_parquet_table cfg o2cfg ws gd hk session schema files rules
          s fc ic fst_fields).2 = .ok t ∧
        t.url = tmpfs_listing_url session.id) ∧
    (session.storage_type ≠ StorageType.memory →
      session.storage_type ≠ StorageType.wal →
      session.storage_type ≠ StorageType.tmpfs →
      (create_parquet_table cfg o2cfg ws gd hk session schema files rules s fc
          ic fst_fields).1 = [] ∧
      ∃ msg, (create_parquet_table cfg o2cfg ws gd hk session schema files
          rules s fc ic fst_fields).2 = .error (.execution msg)) := by
  obtain ⟨tp2, m⟩ := pm
  refine ⟨?_, ?_, ?_, ?_⟩
  · intro hst
    constructor
    · simp [create_parquet_table, hgov, hst]
    · simp [create_parquet_table, hgov, hst]
  · intro hst
    have hne : session.storage_type ≠ StorageType.memory := by
      rw [hst]
      intro hc
      exact StorageType.noConfusion hc
    constructor
    · simp [create_parquet_table, hgov, hst, hne]
    · simp [create_parquet_table, hgov, hst, hne]
  · intro hst
    have hne1 : session.storage_type ≠ StorageType.memory := by
      rw [hst]
      intro hc
      exact StorageType.noConfusion hc
    have hne2 : session.storage_type ≠ StorageType.wal := by
      rw [hst]
      intro hc
      exact StorageType.noConfusion hc
    constructor
    · simp [create_parquet_table, hgov, hst, hne1, hne2]
    · simp [create_parquet_table, hgov, hst, hne1, hne2]
  · intro h1 h2 h3
    constructor
    · simp [create_parquet_table, hgov, h1, h2, h3]
    · simp [create_parquet_table, hgov, h1, h2, h3]

/-- Witness for C5: the staging log and listing URL on each concrete
backend, and the failure on the modelled remote backend. -/
theorem create_parquet_table_storage_dispatch_witness :
    (create_parquet_table cfgEx o2Ex wsEx gdEx hkEx (sessEx StorageType.memory)
        schemaEx [fkEx] [] false false Option.none []).1 =
      [{ session_id := "sid", schema_key := "abc", files := [fkEx] }] ∧
    ((create_parquet_table cfgEx o2Ex wsEx gdEx hkEx (sessEx StorageType.memory)
        schemaEx [fkEx] [] false false Option.none []).2.map
      NewListingTable.url) = .ok "memory:///sid/schema=abc/" ∧
    (create_parquet_table cfgEx o2Ex wsEx gdEx hkEx (sessEx StorageType.wal)
        schemaEx [fkEx] [] false false Option.none []).1 =
      [{ session_id := "sid", schema_key := "abc", files := [fkEx] }] ∧
    ((create_parquet_table cfgEx o2Ex wsEx gdEx hkEx (sessEx StorageType.wal)
        schemaEx [fkEx] [] false false Option.none []).2.map
      NewListingTable.url) = .ok "wal:///sid/schema=abc/" ∧
    (create_parquet_table cfgEx o2Ex wsEx gdEx hkEx (sessEx StorageType.tmpfs)
        schemaEx [fkEx] [] false false Option.none []).1 = [] ∧
    ((create_parquet_table cfgEx o2Ex wsEx gdEx hkEx (sessEx StorageType.tmpfs)
        schemaEx [fkEx] [] false false Option.none []).2.map
      NewListingTable.url) = .ok "tmpfs:///sid/" ∧
    (create_parquet_table cfgEx o2Ex wsEx gdEx hkEx (sessEx StorageType.remote)
        schemaEx [fkEx] [] false false Option.none []).1 = [] ∧
    (create_parquet_table cfgEx o2Ex wsEx gdEx hkEx (sessEx StorageType.remote)
        schemaEx [fkEx] [] false false Option.none []).2.isOk = false := by
  have hm := create_parquet_table_storage_dispatch cfgEx o2Ex wsEx gdEx hkEx
    (sessEx StorageType.memory) schemaEx [fkEx] [] false false Option.none []
    (8, 0) rfl
  have hw := create_parquet_table_storage_dispatch cfgEx o2Ex wsEx gdEx hkEx
    (sessEx StorageType.wal) schemaEx [fkEx] [] false false Option.none []
    (8, 0) rfl
  have ht := create_parquet_table_storage_dispatch cfgEx o2Ex wsEx gdEx hkEx
    (sessEx StorageType.tmpfs) schemaEx [fkEx] [] false false Option.none []
    (8, 0) rfl
  have hr := create_parquet_table_storage_dispatch cfgEx o2Ex wsEx gdEx hkEx
    (sessEx StorageType.remote) schemaEx [fkEx] [] false false Option.none []
    (8, 0) rfl
  obtain ⟨hm1, tm, hm2, hm3⟩ := hm.1 rfl
  obtain ⟨hw1, tw, hw2, hw3⟩ := hw.2.1 rfl
  obtain ⟨ht1, tt, ht2, ht3⟩ := ht.2.2.1 rfl
  obtain ⟨hr1, msg, hr2⟩ := hr.2.2.2 (by decide) (by decide) (by decide)
  refine ⟨hm1, ?_, hw1, ?_, ht1, ?_, hr1, ?_⟩
  · rw [hm2]
    simp only [Except.map]
    rw [hm3]
    rfl
  · rw [hw2]
    simp only [Except.map]
    rw [hw3]
    rfl
  · rw [ht2]
    simp only [Except.map]
    rw [ht3]
    rfl
  · rw [hr2]
    rfl

/-- Claim C7: for every memory_limit, create_runtime_env sizes the memory
pool as the maximum of the requested limit and the 256 MiB floor
(268435456 bytes), so any installed pool is never sized below 256 MiB. -/
theorem create_runtime_env_memory_floor (cfg : Config) (memory_limit : Nat) :
    runtime_memory_size memory_limit = max DATAFUSION_MIN_MEM memory_limit ∧
    268435456 ≤ runtime_memory_size memory_limit ∧
    (∀ r, create_runtime_env cfg memory_limit = .ok r →
      ∀ p, r.memory_pool = some p →
        p = MemPool.greedyMemoryPool (runtime_memory_size memory_limit) ∨
        p = MemPool.fairSpillPool (runtime_memory_size memory_limit)) := by
  refine ⟨rfl, ?_, ?_⟩
  · have h1 : (268435456 : Nat) = DATAFUSION_MIN_MEM := by decide
    rw [h1, runtime_memory_size]
    exact le_max_left _ _
  · intro r hr p hp
    rcases hs : MemoryPoolType.from_str cfg.memory_cache.datafusion_memory_pool
      with e | t
    · simp only [create_runtime_env, hs] at hr
      simp at hr
    · simp only [create_runtime_env, hs] at hr
      injection hr with hr2
      rw [← hr2] at hp
      cases t <;> simp at hp <;> simp [← hp]

/-- Witness for C7: at the concrete limits 0 and 300000000 the pool size is
at the floor and at the limit respectively. -/
theorem create_runtime_env_memory_floor_witness :
    runtime_memory_size 0 = 268435456 ∧
    runtime_memory_size 300000000 = 300000000 ∧
    268435456 ≤ runtime_memory_size 0 ∧
    (MemPool.fairSpillPool 268435456 =
        MemPool.greedyMemoryPool (runtime_memory_size 0) ∨
      MemPool.fairSpillPool 268435456 =
        MemPool.fairSpillPool (runtime_memory_size 0)) := by
  refine ⟨by decide, by decide, (create_runtime_env_memory_floor cfgEx 0).2.1, ?_⟩
  exact (create_runtime_env_memory_floor cfgEx 0).2.2
    { object_store_schemes := ["memory", "wal", "tmpfs"]
      file_statistics_cache := false
      memory_pool := some (MemPool.fairSpillPool 268435456) } rfl
    (MemPool.fairSpillPool 268435456) rfl

/-- Claim C8: in session-config construction, when both bloom-filter
switches are set the parquet bloom-filter-on-read option ends up disabled
(the force-disable switch wins); with only the enable switch set it ends
up enabled; with only the force-disable switch set it ends up disabled. -/
theorem create_session_config_bloom_filter (cfg : Config)
    (sorted_by_time : Bool) (tp : Nat) :
    (cfg.common.bloom_filter_enabled = true →
      cfg.common.bloom_filter_disabled_on_search = true →
      (create_session_config cfg sorted_by_time tp).bloom_filter_on_read =
        some false) ∧
    (cfg.common.bloom_filter_enabled = true →
      cfg.common.bloom_filter_disabled_on_search = false →
      (create_session_config cfg sorted_by_time tp).bloom_filter_on_read =
        some true) ∧
    (cfg.common.bloom_filter_enabled = false →
      cfg.common.bloom_filter_disabled_on_search = true →
      (create_session_config cfg sorted_by_time tp).bloom_filter_on_read =
        some false) := by
  refine ⟨?_, ?_, ?_⟩ <;>
    · intro h1 h2
      simp [create_session_config, h1, h2]

/-- Witness for C8: the three switch combinations at concrete configs. -/
theorem create_session_config_bloom_filter_witness :
    (create_session_config cfgBothEx true 8).bloom_filter_on_read =
      some false ∧
    (create_session_config cfgEx true 8).bloom_filter_on_read = some true ∧
    (create_session_config cfgDisEx true 8).bloom_filter_on_read =
      some false := by
  refine ⟨(create_session_config_bloom_filter cfgBothEx true 8).1 rfl rfl,
    (create_session_config_bloom_filter cfgEx true 8).2.1 rfl rfl,
    (create_session_config_bloom_filter cfgDisEx true 8).2.2 rfl rfl⟩

/-- Claim C9: runtime-environment construction fails with the
invalid-configuration error exactly when the configured memory-pool
strategy string parses as none of the three recognized strategies; each
recognized strategy succeeds and selects the corresponding pool, with no
pool installed for the unbounded (none) strategy. -/
theorem create_runtime_env_memory_pool_strategy (cfg : Config) (ml : Nat) :
    ((∃ e, create_runtime_env cfg ml = .error e) ↔
      ¬(cfg.memory_cache.datafusion_memory_pool = "none" ∨
        cfg.memory_cache.datafusion_memory_pool = "greedy" ∨
        cfg.memory_cache.datafusion_memory_pool = "fair")) ∧
    (cfg.memory_cache.datafusion_memory_pool = "greedy" →
      ∃ r, create_runtime_env cfg ml = .ok r ∧
        r.memory_pool = some (MemPool.greedyMemoryPool (runtime_memory_size ml))) ∧
    (cfg.memory_cache.datafusion_memory_pool = "fair" →
      ∃ r, create_runtime_env cfg ml = .ok r ∧
        r.memory_pool = some (MemPool.fairSpillPool (runtime_memory_size ml))) ∧
    (cfg.memory_cache.datafusion_memory_pool = "none" →
      ∃ r, create_runtime_env cfg ml = .ok r ∧
        r.memory_pool = Option.none) := by
  refine ⟨⟨?_, ?_⟩, ?_, ?_, ?_⟩
  · rintro ⟨e, he⟩ hcon
    rcases hcon with h | h | h <;>
      simp [create_runtime_env, MemoryPoolType.from_str, h] at he
  · intro hcon
    push_neg at hcon
    obtain ⟨h1, h2, h3⟩ := hcon
    have hfs : MemoryPoolType.from_str cfg.memory_cache.datafusion_memory_pool =
        .error cfg.memory_cache.datafusion_memory_pool := by
      simp [MemoryPoolType.from_str, h1, h2, h3]
    refine ⟨DataFusionError.execution
      (toString "Invalid datafusion memory pool type: " ++
        toString cfg.memory_cache.datafusion_memory_pool ++ toString ""), ?_⟩
    simp [create_runtime_env, hfs]
  · intro h
    have hfs : MemoryPoolType.from_str cfg.memory_cache.datafusion_memory_pool =
        .ok MemoryPoolType.greedy := by
      rw [h]
      rfl
    simp [create_runtime_env, hfs]
  · intro h
    have hfs : MemoryPoolType.from_str cfg.memory_cache.datafusion_memory_pool =
        .ok MemoryPoolType.fair := by
      rw [h]
      rfl
    simp [create_runtime_env, hfs]
  · intro h
    have hfs : MemoryPoolType.from_str cfg.memory_cache.datafusion_memory_pool =
        .ok MemoryPoolType.none := by
      rw [h]
      rfl
    simp [create_runtime_env, hfs]

/-- Witness for C9: the fair strategy of the concrete configuration
installs a fair-spill pool, and the bogus strategy string fails. -/
theorem create_runtime_env_memory_pool_strategy_witness :
    (create_runtime_env cfgEx 0).isOk = true ∧
    ((create_runtime_env cfgEx 0).map RuntimeEnv.memory_pool) =
      .ok (some (MemPool.fairSpillPool 268435456)) ∧
    ((create_runtime_env cfgGreedyEx 0).map RuntimeEnv.memory_pool) =
      .ok (some (MemPool.greedyMemoryPool 268435456)) ∧
    ((create_runtime_env cfgNonePoolEx 0).map RuntimeEnv.memory_pool) =
      .ok Option.none ∧
    (create_runtime_env cfgBadPoolEx 0).isOk = false := by
  obtain ⟨rf, hrf, hpf⟩ :=
    (create_runtime_env_memory_pool_strategy cfgEx 0).2.2.1 rfl
  obtain ⟨rg, hrg, hpg⟩ :=
    (create_runtime_env_memory_pool_strategy cfgGreedyEx 0).2.1 rfl
  obtain ⟨rn, hrn, hpn⟩ :=
    (create_runtime_env_memory_pool_strategy cfgNonePoolEx 0).2.2.2 rfl
  obtain ⟨e, he⟩ :=
    (create_runtime_env_memory_pool_strategy cfgBadPoolEx 0).1.mpr
      (by decide)
  refine ⟨?_, ?_, ?_, ?_, ?_⟩
  · rw [hrf]
    rfl
  · rw [hrf]
    simp only [Except.map]
    rw [hpf]
    rfl
  · rw [hrg]
    simp only [Except.map]
    rw [hpg]
    rfl
  · rw [hrn]
    simp only [Except.map]
    rw [hpn]
  · rw [he]
    rfl

/-- Helper: a successfully prepared context carries the statistics-split
option exactly when the sortedness flag was set. -/
theorem prepare_datafusion_context_ok_split (cfg : Config)
    (o2cfg : O2SearchGroupCfg) (ws : String → Option WorkGroup)
    (gd : WorkGroup → Except String (Nat × Nat)) (wg : Option String)
    (rne sorted_by_time : Bool) (tp : Nat) (ctx : SessionContext)
    (h : prepare_datafusion_context cfg o2cfg ws gd wg rne sorted_by_time tp =
      .ok ctx) :
    ctx.session_config.split_file_groups_by_statistics =
      (if sorted_by_time then some true else Option.none) := by
  rcases hg : get_cpu_and_mem_limit o2cfg ws gd wg tp
      cfg.memory_cache.datafusion_max_size with e | pm
  · simp only [prepare_datafusion_context, hg] at h
    simp at h
  · obtain ⟨p2, m2⟩ := pm
    simp only [prepare_datafusion_context, hg] at h
    rcases hre : create_runtime_env cfg m2 with e | renv
    · simp only [hre] at h
      simp at h
    · simp only [hre] at h
      injection h with h2
      rw [← h2]
      rfl

/-- Helper: a successfully built parquet table carries the descending,
nulls-last timestamp sort order exactly when the sortedness flag was
set. -/
theorem create_parquet_table_ok_sort_order (cfg : Config)
    (o2cfg : O2SearchGroupCfg) (ws : String → Option WorkGroup)
    (gd : WorkGroup → Except String (Nat × Nat)) (hk : Schema → String)
    (session : SearchSession) (schema : Schema) (files : List FileKey)
    (rules : List (String × DataType)) (s fc : Bool)
    (ic : Option IndexCondition) (fst_fields : List String)
    (events : List StageEvent) (t : NewListingTable)
    (h : create_parquet_table cfg o2cfg ws gd hk session schema files rules s
        fc ic fst_fields = (events, .ok t)) :
    t.listing_options.file_sort_order =
      (if s then
        [[{ expr := cfg.common.column_timestamp
            asc := false
            nulls_first := false }]]
       else []) := by
  rcases hg : get_cpu_and_mem_limit o2cfg ws gd session.work_group
      (parquet_nominal_partitions cfg session) 0 with e | pm
  · simp only [create_parquet_table, hg] at h
    simp at h
  · obtain ⟨tp2, m⟩ := pm
    simp only [create_parquet_table, hg] at h
    by_cases h1 : session.storage_type = StorageType.memory
    · simp only [if_pos h1] at h
      injection h with hev hok
      injection hok with ht
      rw [← ht]
    · simp only [if_neg h1] at h
      by_cases h2 : session.storage_type = StorageType.wal
      · simp only [if_pos h2] at h
        injection h with hev hok
        injection hok with ht
        rw [← ht]
      · simp only [if_neg h2] at h
        by_cases h3 : session.storage_type = StorageType.tmpfs
        · simp only [if_pos h3] at h
          injection h with hev hok
          injection hok with ht
          rw [← ht]
        · simp only [if_neg h3] at h
          simp at h

/-- Claim C10: register_table treats the input as sorted by time if and
only if the supplied sort key is exactly one entry naming the configured
timestamp column with the descending flag set; and on a successful
registration that flag alone enables the time-sort statistics split of
the context and the descending, nulls-last file sort order of the table;
any other sort key is treated as unsorted with no error. -/
theorem register_table_sorted_key_dispatch (cfg : Config)
    (sort_key : List (String × Bool)) :
    (register_table_sorted_by_time cfg sort_key = true ↔
      sort_key = [(cfg.common.column_timestamp, true)]) ∧
    (∀ o2cfg ws gd hk session schema table_name files rules events ctx nm t,
      register_table cfg o2cfg ws gd hk session schema table_name files rules
          sort_key = (events, .ok (ctx, nm, t)) →
      ctx.session_config.split_file_groups_by_statistics =
        (if register_table_sorted_by_time cfg sort_key then some true
         else Option.none) ∧
      t.listing_options.file_sort_order =
        (if register_table_sorted_by_time cfg sort_key then
          [[{ expr := cfg.common.column_timestamp
              asc := false
              nulls_first := false }]]
         else [])) := by
  constructor
  · cases sort_key with
    | nil => simp [register_table_sorted_by_time]
    | cons hd tl =>
      obtain ⟨c, d⟩ := hd
      cases tl with
      | nil =>
        simp [register_table_sorted_by_time]
      | cons hd2 tl2 => simp [register_table_sorted_by_time]
  · intro o2cfg ws gd hk session schema table_name files rules events ctx nm t h
    rcases hp : prepare_datafusion_context cfg o2cfg ws gd session.work_group
        false (register_table_sorted_by_time cfg sort_key)
        session.target_partitions with e | ctx2
    · simp only [register_table, hp] at h
      simp at h
    · simp only [register_table, hp] at h
      rcases hc : create_parquet_table cfg o2cfg ws gd hk session schema files
          rules (register_table_sorted_by_time cfg sort_key)
          ctx2.runtime_env.file_statistics_cache Option.none []
        with ⟨events2, res⟩
      rcases res with e | table
      · rw [hc] at h
        simp at h
      · rw [hc] at h
        simp only [Prod.mk.injEq] at h
        obtain ⟨hev, hok⟩ := h
        have hinner := hok
        simp only [Except.ok.injEq, Prod.mk.injEq] at hinner
        obtain ⟨hctx, hnm, ht⟩ := hinner
        constructor
        · rw [← hctx]
          exact prepare_datafusion_context_ok_split cfg o2cfg ws gd
            session.work_group false (register_table_sorted_by_time cfg sort_key)
            session.target_partitions ctx2 hp
        · rw [← ht]
          exact create_parquet_table_ok_sort_order cfg o2cfg ws gd hk session
            schema files rules (register_table_sorted_by_time cfg sort_key)
            ctx2.runtime_env.file_statistics_cache Option.none [] events2 table hc

/-- Witness for C10: the exact descending timestamp key is sorted, the
ascending variant is not, and a successful concrete registration carries
the statistics split and the file sort order. -/
theorem register_table_sorted_key_dispatch_witness :
    register_table_sorted_by_time cfgEx [("_timestamp", true)] = true ∧
    register_table_sorted_by_time cfgEx [("_timestamp", false)] = false ∧
    register_table_sorted_by_time cfgEx [] = false ∧
    register_table_sorted_by_time cfgEx [("msg", true)] = false ∧
    (({ session_config :=
          { batch_size := 8192
            target_partitions := 8
            information_schema := true
            listing_table_ignore_subdirectory := false
            dialect := "PostgreSQL"
            bloom_filter_on_read := some true
            split_file_groups_by_statistics := some true
            skip_physical_aggregate_schema_check := some true }
        runtime_env :=
          { object_store_schemes := ["memory", "wal", "tmpfs"]
            file_statistics_cache := false
            memory_pool := some (MemPool.fairSpillPool 268435456) }
        with_extra_optimizer_rules := false
        with_join_reorder_rule := false
        with_query_planner := false } :
        SessionContext).session_config.split_file_groups_by_statistics =
      some true) ∧
    (({ url := "memory:///sid/schema=abc/"
        listing_options :=
          { file_extension := "parquet"
            target_partitions := 8
            collect_stat := true
            file_sort_order :=
              [[{ expr := "_timestamp", asc := false, nulls_first := false }]] }
        schema := [{ name := "_timestamp"
                     data_type := DataType.int64
                     nullable := false },
                   { name := "msg"
                     data_type := DataType.utf8
                     nullable := true }]
        rules := []
        index_condition := Option.none
        fst_fields := []
        has_cache := false } :
        NewListingTable).listing_options.file_sort_order =
      [[{ expr := "_timestamp", asc := false, nulls_first := false }]]) := by
  have hreg := (register_table_sorted_key_dispatch cfgEx
    [("_timestamp", true)]).2 o2Ex wsEx gdEx hkEx (sessEx StorageType.memory)
    schemaEx "tbl" [fkEx] []
    [{ session_id := "sid", schema_key := "abc", files := [fkEx] }]
    { session_config :=
        { batch_size := 8192
          target_partitions := 8
          information_schema := true
          listing_table_ignore_subdirectory := false
          dialect := "PostgreSQL"
          bloom_filter_on_read := some true
          split_file_groups_by_statistics := some true
          skip_physical_aggregate_schema_check := some true }
      runtime_env :=
        { object_store_schemes := ["memory", "wal", "tmpfs"]
          file_statistics_cache := false
          memory_pool := some (MemPool.fairSpillPool 268435456) }
      with_extra_optimizer_rules := false
      with_join_reorder_rule := false
      with_query_planner := false }
    "tbl"
    { url := "memory:///sid/schema=abc/"
      listing_options :=
        { file_extension := "parquet"
          target_partitions := 8
          collect_stat := true
          file_sort_order :=
            [[{ expr := "_timestamp", asc := false, nulls_first := false }]] }
      schema := [{ name := "_timestamp"
                   data_type := DataType.int64
                   nullable := false },
                 { name := "msg"
                   data_type := DataType.utf8
                   nullable := true }]
      rules := []
      index_condition := Option.none
      fst_fields := []
      has_cache := false }
    rfl
  refine ⟨?_, ?_, ?_, ?_, hreg.1, hreg.2⟩
  · exact (register_table_sorted_key_dispatch cfgEx
      [("_timestamp", true)]).1.mpr rfl
  · have h := (register_table_sorted_key_dispatch cfgEx
      [("_timestamp", false)]).1
    by_contra hc
    simp only [Bool.not_eq_false] at hc
    exact absurd (h.mp hc) (by decide)
  · have h := (register_table_sorted_key_dispatch cfgEx []).1
    by_contra hc
    simp only [Bool.not_eq_false] at hc
    exact absurd (h.mp hc) (by decide)
  · have h := (register_table_sorted_key_dispatch cfgEx [("msg", true)]).1
    by_contra hc
    simp only [Bool.not_eq_false] at hc
    exact absurd (h.mp hc) (by decide)

end OpenObserve
